import Mathlib

/-!
Shallow embedding of the Solana escrow program (src/src/processor.rs) and
proofs about its two handlers, process_init_escrow and process_exchange.

Accounts live in a store mapping public keys to account contents; the
instruction supplies ordered positional account references (key plus signer
flag).  The external token-ledger service (spl_token), the record
serialization (state.rs) and the rent oracle are collaborators modelled from
their contracts in the specification; the processor logic itself is a direct
translation of the source.
-/

namespace SolEscrow

/-- Public keys are modelled as natural numbers (abstract identities). -/
abbrev Pubkey := Nat

/-- Unsigned 64-bit modulus: checked additions fail when a sum reaches it. -/
def U64_MOD : Nat := 2 ^ 64

/-- The escrow record persisted in the escrow storage account
(crate state.rs, fields as used by processor.rs). -/
structure Escrow where
  is_initialized : Bool
  initializer_pubkey : Pubkey
  temp_token_account_pubkey : Pubkey
  initializer_token_to_receive_account_pubkey : Pubkey
  expected_amount : Nat
  deriving DecidableEq

/-- The part of an spl_token ledger account the processor reads:
its owning authority and its token balance. -/
structure TokenAccount where
  owner : Pubkey
  amount : Nat
  deriving DecidableEq

/-- Contents of an account's data storage: empty, an escrow-record layout,
or a token-account layout. -/
inductive AccountData where
  | empty : AccountData
  | escrowData : Escrow → AccountData
  | tokenData : TokenAccount → AccountData
  deriving DecidableEq

/-- An on-chain account: backing balance (lamports), owning program, data. -/
structure Account where
  lamports : Nat
  owner : Pubkey
  data : AccountData
  deriving DecidableEq

/-- Global account state: each public key names an account. -/
def Store := Pubkey → Account

/-- A positional account reference in an instruction: key and signer flag. -/
structure AccountRef where
  key : Pubkey
  is_signer : Bool
  deriving DecidableEq

/-- Write one account back into the store. -/
def Store.set (s : Store) (k : Pubkey) (a : Account) : Store :=
  fun q => if q = k then a else s q

/-- Error outcomes observable from the processor (the program's own domain
errors together with the runtime and token-ledger errors it propagates). -/
inductive ProgError where
  | MissingRequiredSignature
  | IncorrectProgramId
  | InvalidAccountData
  | NotEnoughAccountKeys
  | UninitializedAccount
  | AccountAlreadyInitialized
  | NotRentExempt
  | ExpectedAmountMismatch
  | AmountOverflow
  | TokenOwnerMismatch
  | TokenInsufficientFunds
  | TokenOverflow
  deriving DecidableEq

/-- Modelled from the spec: fixed-width escrow-record decoding
(Escrow::unpack_unchecked from the repository's state.rs, which is not among
the provided sources).  Storage holding an escrow-record layout decodes to
the record; any other layout fails as invalid account data. -/
def Escrow.unpack_unchecked (d : AccountData) : Except ProgError Escrow :=
  match d with
  | .escrowData e => .ok e
  | _ => .error .InvalidAccountData

/-- Modelled from the spec: Escrow::unpack additionally requires the decoded
record to be marked initialized (closed or fresh storage reads back as not
initialized and is rejected). -/
def Escrow.unpack (d : AccountData) : Except ProgError Escrow :=
  match Escrow.unpack_unchecked d with
  | .error e => .error e
  | .ok e => if e.is_initialized then .ok e else .error .UninitializedAccount

/-- Modelled from the spec: Escrow::pack overwrites the storage with the
record's layout. -/
def Escrow.pack (e : Escrow) (_old : AccountData) : AccountData :=
  .escrowData e

/-- Modelled from the spec: the token ledger's account decoding
(spl_token::state::Account::unpack): storage holding a token-account layout
decodes to it, anything else fails. -/
def TokenAccount.unpack (d : AccountData) : Except ProgError TokenAccount :=
  match d with
  | .tokenData t => .ok t
  | _ => .error .InvalidAccountData

/-- Storage size of each data layout (escrow records and spl token accounts
are fixed-width). -/
def AccountData.len : AccountData → Nat
  | .empty => 0
  | .escrowData _ => 105
  | .tokenData _ => 165

/-- The rent-exemption oracle: given backing balance and data size, answers
whether the account is permanently fee-exempt. -/
structure Rent where
  is_exempt : Nat → Nat → Bool

/-- The token ledger service's own program identity (spl_token::id()). -/
def splTokenId : Pubkey := 999000

/-- Modelled from the spec: the token ledger's transfer operation.  Moves
amt units from src to dst, requiring the source authority's signature and
sufficient balance; the destination credit is overflow-checked.  A
self-transfer that passes the checks leaves the state unchanged. -/
def tokenTransfer (s : Store) (src dst auth : Pubkey) (signed : Bool)
    (amt : Nat) : Except ProgError Store :=
  match TokenAccount.unpack (s src).data with
  | .error e => .error e
  | .ok ts =>
    match TokenAccount.unpack (s dst).data with
    | .error e => .error e
    | .ok td =>
      if ¬ signed then .error .MissingRequiredSignature
      else if ts.owner ≠ auth then .error .TokenOwnerMismatch
      else if ts.amount < amt then .error .TokenInsufficientFunds
      else if src = dst then .ok s
      else if U64_MOD ≤ td.amount + amt then .error .TokenOverflow
      else .ok ((Store.set s src
          { s src with data := .tokenData { ts with amount := ts.amount - amt } }).set dst
          { s dst with data := .tokenData { td with amount := td.amount + amt } })

/-- Modelled from the spec: the token ledger's authority change.  Reassigns
the owning authority of acct from curAuth to newAuth, requiring the current
authority's signature. -/
def tokenSetAuthority (s : Store) (acct newAuth curAuth : Pubkey)
    (signed : Bool) : Except ProgError Store :=
  match TokenAccount.unpack (s acct).data with
  | .error e => .error e
  | .ok ta =>
    if ¬ signed then .error .MissingRequiredSignature
    else if ta.owner ≠ curAuth then .error .TokenOwnerMismatch
    else .ok (Store.set s acct
      { s acct with data := .tokenData { ta with owner := newAuth } })

/-- Modelled from the spec: the token ledger's close operation.  Closes
acct, redirecting its whole backing balance to dest (overflow-checked),
requiring the account authority's signature; the closed account is left
with zero balance and empty data. -/
def tokenCloseAccount (s : Store) (acct dest auth : Pubkey) (signed : Bool) :
    Except ProgError Store :=
  match TokenAccount.unpack (s acct).data with
  | .error e => .error e
  | .ok ta =>
    if ¬ signed then .error .MissingRequiredSignature
    else if ta.owner ≠ auth then .error .TokenOwnerMismatch
    else if U64_MOD ≤ (s dest).lamports + (s acct).lamports then .error .TokenOverflow
    else
      let s1 := Store.set s dest
        { s dest with lamports := (s dest).lamports + (s acct).lamports }
      .ok (Store.set s1 acct { s1 acct with lamports := 0, data := .empty })

/-- Processor::process_init_escrow (processor.rs lines 34-95), translated
step for step: ordered account fetches interleaved with the checks exactly
as in the source; the set-authority CPI is the ledger-contract operation.
findPA models Pubkey::find_program_address applied to the fixed seed. -/
def processInitEscrow (findPA : Pubkey → Pubkey × Nat) (rent : Rent)
    (s : Store) (accounts : List AccountRef) (amount : Nat)
    (program_id : Pubkey) : Except ProgError Store :=
  match accounts with
  | [] => .error .NotEnoughAccountKeys
  | initializer :: r1 =>
    if ¬ initializer.is_signer then .error .MissingRequiredSignature
    else match r1 with
    | [] => .error .NotEnoughAccountKeys
    | temp_token_account :: r2 =>
      match r2 with
      | [] => .error .NotEnoughAccountKeys
      | token_to_receive_account :: r3 =>
        if (s token_to_receive_account.key).owner ≠ splTokenId then
          .error .IncorrectProgramId
        else match r3 with
        | [] => .error .NotEnoughAccountKeys
        | escrow_account :: r4 =>
          match r4 with
          | [] => .error .NotEnoughAccountKeys
          | _rent_sysvar :: r5 =>
            if ¬ rent.is_exempt (s escrow_account.key).lamports
                (s escrow_account.key).data.len then
              .error .NotRentExempt
            else match Escrow.unpack_unchecked (s escrow_account.key).data with
            | .error e => .error e
            | .ok escrow_info0 =>
              if escrow_info0.is_initialized then .error .AccountAlreadyInitialized
              else
                let escrow_info : Escrow :=
                  { is_initialized := true
                    initializer_pubkey := initializer.key
                    temp_token_account_pubkey := temp_token_account.key
                    initializer_token_to_receive_account_pubkey :=
                      token_to_receive_account.key
                    expected_amount := amount }
                let s1 := Store.set s escrow_account.key
                  { s escrow_account.key with
                    data := Escrow.pack escrow_info (s escrow_account.key).data }
                let pdaBump := findPA program_id
                match r5 with
                | [] => .error .NotEnoughAccountKeys
                | _token_program :: _r6 =>
                  tokenSetAuthority s1 temp_token_account.key pdaBump.1
                    initializer.key initializer.is_signer

/-- Processor::process_exchange (processor.rs lines 97-215), translated step
for step: ordered fetches interleaved with the checks, the three CPIs as
ledger-contract operations, and the final overflow-checked rent reclaim and
record zeroing. -/
def processExchange (findPA : Pubkey → Pubkey × Nat) (s : Store)
    (accounts : List AccountRef) (amount_expected_by_taker : Nat)
    (program_id : Pubkey) : Except ProgError Store :=
  match accounts with
  | [] => .error .NotEnoughAccountKeys
  | taker :: r1 =>
    if ¬ taker.is_signer then .error .MissingRequiredSignature
    else match r1 with
    | [] => .error .NotEnoughAccountKeys
    | send_token_account :: r2 =>
      match r2 with
      | [] => .error .NotEnoughAccountKeys
      | receive_token_account :: r3 =>
        match r3 with
        | [] => .error .NotEnoughAccountKeys
        | pdas_temp_token_account :: r4 =>
          match TokenAccount.unpack (s pdas_temp_token_account.key).data with
          | .error e => .error e
          | .ok pdas_temp_token_account_info =>
            let pdaBump := findPA program_id
            if amount_expected_by_taker ≠ pdas_temp_token_account_info.amount then
              .error .ExpectedAmountMismatch
            else match r4 with
            | [] => .error .NotEnoughAccountKeys
            | initializers_main_account :: r5 =>
              match r5 with
              | [] => .error .NotEnoughAccountKeys
              | initializer_token_to_receive_account :: r6 =>
                match r6 with
                | [] => .error .NotEnoughAccountKeys
                | escrow_account :: r7 =>
                  match Escrow.unpack (s escrow_account.key).data with
                  | .error e => .error e
                  | .ok escrow_info =>
                    if escrow_info.temp_token_account_pubkey ≠
                        pdas_temp_token_account.key then
                      .error .InvalidAccountData
                    else if escrow_info.initializer_pubkey ≠
                        initializers_main_account.key then
                      .error .InvalidAccountData
                    else if escrow_info.initializer_token_to_receive_account_pubkey ≠
                        initializer_token_to_receive_account.key then
                      .error .InvalidAccountData
                    else match r7 with
                    | [] => .error .NotEnoughAccountKeys
                    | _token_program :: r8 =>
                      match tokenTransfer s send_token_account.key
                          initializer_token_to_receive_account.key taker.key
                          taker.is_signer escrow_info.expected_amount with
                      | .error e => .error e
                      | .ok s1 =>
                        match r8 with
                        | [] => .error .NotEnoughAccountKeys
                        | _pda_account :: _r9 =>
                          match tokenTransfer s1 pdas_temp_token_account.key
                              receive_token_account.key pdaBump.1 true
                              pdas_temp_token_account_info.amount with
                          | .error e => .error e
                          | .ok s2 =>
                            match tokenCloseAccount s2 pdas_temp_token_account.key
                                initializers_main_account.key pdaBump.1 true with
                            | .error e => .error e
                            | .ok s3 =>
                              if U64_MOD ≤
                                  (s3 initializers_main_account.key).lamports +
                                  (s3 escrow_account.key).lamports then
                                .error .AmountOverflow
                              else
                                let s4 := Store.set s3 initializers_main_account.key
                                  { s3 initializers_main_account.key with
                                    lamports :=
                                      (s3 initializers_main_account.key).lamports +
                                      (s3 escrow_account.key).lamports }
                                let s5 := Store.set s4 escrow_account.key
                                  { s4 escrow_account.key with
                                    lamports := 0, data := .empty }
                                .ok s5

/-- The two decoded instruction variants produced by
EscrowInstruction::unpack (decoding contract only). -/
inductive EscrowInstruction where
  | InitEscrow (amount : Nat)
  | Exchange (amount : Nat)
  deriving DecidableEq

/-- Processor::process (processor.rs lines 19-32): dispatch a decoded
instruction to the matching handler. -/
def process (findPA : Pubkey → Pubkey × Nat) (rent : Rent) (s : Store)
    (accounts : List AccountRef) (ix : EscrowInstruction)
    (program_id : Pubkey) : Except ProgError Store :=
  match ix with
  | .InitEscrow amount => processInitEscrow findPA rent s accounts amount program_id
  | .Exchange amount => processExchange findPA s accounts amount program_id

/-- The hosting environment's all-or-nothing commit around InitEscrow: a
failed call leaves the pre-call store. -/
def runInitEscrow (findPA : Pubkey → Pubkey × Nat) (rent : Rent) (s : Store)
    (accounts : List AccountRef) (amount : Nat) (program_id : Pubkey) : Store :=
  match processInitEscrow findPA rent s accounts amount program_id with
  | .ok s2 => s2
  | .error _ => s

/-- The hosting environment's all-or-nothing commit around Exchange: a
failed call leaves the pre-call store. -/
def runExchange (findPA : Pubkey → Pubkey × Nat) (s : Store)
    (accounts : List AccountRef) (amount : Nat) (program_id : Pubkey) : Store :=
  match processExchange findPA s accounts amount program_id with
  | .ok s2 => s2
  | .error _ => s

/-- Everything process_exchange has established once all its validation
checks have passed (processor.rs lines 102-142): the fetched references it
will settle against, the decoded record, the custodied balance read before
settlement, and the derived authority. -/
structure ExchChecked where
  taker : AccountRef
  pdas_temp_token_account : AccountRef
  initializers_main_account : AccountRef
  initializer_token_to_receive_account : AccountRef
  escrow_account : AccountRef
  escrow_info : Escrow
  temp_amount : Nat
  pda : Pubkey

/-- The validation prefix of process_exchange (processor.rs lines 102-142):
signer check, custodied-balance read and declared-amount check, record
decode, and the three record cross-checks.  Note its arguments: the taker's
send and receive token accounts are not among them. -/
def exchangeValidate (findPA : Pubkey → Pubkey × Nat) (s : Store)
    (taker temp main irecv esc : AccountRef)
    (amount_expected_by_taker : Nat) (program_id : Pubkey) :
    Except ProgError ExchChecked :=
  if ¬ taker.is_signer then .error .MissingRequiredSignature
  else match TokenAccount.unpack (s temp.key).data with
  | .error e => .error e
  | .ok tempTok =>
    let pdaBump := findPA program_id
    if amount_expected_by_taker ≠ tempTok.amount then .error .ExpectedAmountMismatch
    else match Escrow.unpack (s esc.key).data with
    | .error e => .error e
    | .ok escrow_info =>
      if escrow_info.temp_token_account_pubkey ≠ temp.key then .error .InvalidAccountData
      else if escrow_info.initializer_pubkey ≠ main.key then .error .InvalidAccountData
      else if escrow_info.initializer_token_to_receive_account_pubkey ≠ irecv.key then
        .error .InvalidAccountData
      else .ok
        { taker := taker
          pdas_temp_token_account := temp
          initializers_main_account := main
          initializer_token_to_receive_account := irecv
          escrow_account := esc
          escrow_info := escrow_info
          temp_amount := tempTok.amount
          pda := pdaBump.1 }

/-- The settlement suffix of process_exchange (processor.rs lines 144-214):
the two transfers, the close of the custodied account, and the
overflow-checked rent reclaim with record zeroing.  The taker-chosen send
and receive token accounts enter here, after all validation. -/
def exchangeEffects (s : Store) (c : ExchChecked)
    (send_token_account receive_token_account : AccountRef)
    (rest : List AccountRef) : Except ProgError Store :=
  match tokenTransfer s send_token_account.key
      c.initializer_token_to_receive_account.key c.taker.key
      c.taker.is_signer c.escrow_info.expected_amount with
  | .error e => .error e
  | .ok s1 =>
    match rest with
    | [] => .error .NotEnoughAccountKeys
    | _pda_account :: _ =>
      match tokenTransfer s1 c.pdas_temp_token_account.key
          receive_token_account.key c.pda true c.temp_amount with
      | .error e => .error e
      | .ok s2 =>
        match tokenCloseAccount s2 c.pdas_temp_token_account.key
            c.initializers_main_account.key c.pda true with
        | .error e => .error e
        | .ok s3 =>
          if U64_MOD ≤ (s3 c.initializers_main_account.key).lamports +
              (s3 c.escrow_account.key).lamports then
            .error .AmountOverflow
          else
            let s4 := Store.set s3 c.initializers_main_account.key
              { s3 c.initializers_main_account.key with
                lamports := (s3 c.initializers_main_account.key).lamports +
                  (s3 c.escrow_account.key).lamports }
            .ok (Store.set s4 c.escrow_account.key
              { s4 c.escrow_account.key with lamports := 0, data := .empty })

/-- The validation prefix of process_init_escrow (processor.rs lines 40-63):
signer check, receive-account ownership check, rent-exemption check, record
decode and already-initialized check.  Note its arguments: the temporary
deposit account and the instruction amount are not among them. -/
def initValidate (rent : Rent) (s : Store)
    (initializer recvAcct esc : AccountRef) : Except ProgError Escrow :=
  if ¬ initializer.is_signer then .error .MissingRequiredSignature
  else if (s recvAcct.key).owner ≠ splTokenId then .error .IncorrectProgramId
  else if ¬ rent.is_exempt (s esc.key).lamports (s esc.key).data.len then
    .error .NotRentExempt
  else match Escrow.unpack_unchecked (s esc.key).data with
  | .error e => .error e
  | .ok escrow_info0 =>
    if escrow_info0.is_initialized then .error .AccountAlreadyInitialized
    else .ok escrow_info0

/-- The effect suffix of process_init_escrow (processor.rs lines 65-94):
populate and persist the record verbatim from the supplied accounts and
amount, then delegate custody of the temporary deposit account to the
derived authority. -/
def initEffects (findPA : Pubkey → Pubkey × Nat) (s : Store)
    (initializer temp recvAcct esc : AccountRef) (rest : List AccountRef)
    (amount : Nat) (program_id : Pubkey) : Except ProgError Store :=
  let escrow_info : Escrow :=
    { is_initialized := true
      initializer_pubkey := initializer.key
      temp_token_account_pubkey := temp.key
      initializer_token_to_receive_account_pubkey := recvAcct.key
      expected_amount := amount }
  let s1 := Store.set s esc.key
    { s esc.key with data := Escrow.pack escrow_info (s esc.key).data }
  let pdaBump := findPA program_id
  match rest with
  | [] => .error .NotEnoughAccountKeys
  | _token_program :: _ =>
    tokenSetAuthority s1 temp.key pdaBump.1 initializer.key initializer.is_signer

/-- Whether a processor call succeeded. -/
def exceptOk (r : Except ProgError Store) : Bool :=
  match r with
  | .ok _ => true
  | .error _ => false

/-! Concrete fixtures used to evaluate the theorems on explicit inputs. -/

/-- A fixed derivation function for concrete runs: the derived custodian
authority is key 77 with bump 251. -/
def wFindPA : Pubkey → Pubkey × Nat := fun _ => (77, 251)

/-- A concrete rent oracle: exempt iff the balance is at least 15. -/
def wRent : Rent := ⟨fun lam _ => decide (15 ≤ lam)⟩

def wTaker : AccountRef := ⟨1, true⟩
def wSend : AccountRef := ⟨2, false⟩
def wRecv : AccountRef := ⟨3, false⟩
def wTemp : AccountRef := ⟨4, false⟩
def wMain : AccountRef := ⟨5, false⟩
def wIRecv : AccountRef := ⟨6, false⟩
def wEsc : AccountRef := ⟨7, false⟩
def wTokenProg : AccountRef := ⟨8, false⟩
def wPdaAcc : AccountRef := ⟨9, false⟩
def wIni : AccountRef := ⟨1, true⟩
def wIniNoSig : AccountRef := ⟨1, false⟩
def wRentAcc : AccountRef := ⟨10, false⟩

/-- Exchange fixture: taker 1 sends asset Y from account 2 and receives
asset X on account 3; the custodied deposit (100 units, authority 77 = the
derived authority) sits on account 4; initializer 5 receives on account 6;
the open escrow record (expecting 50 units) sits on account 7. -/
def wStoreX : Store := fun k =>
  if k = 2 then { lamports := 11, owner := splTokenId, data := .tokenData { owner := 1, amount := 80 } }
  else if k = 3 then { lamports := 12, owner := splTokenId, data := .tokenData { owner := 9, amount := 5 } }
  else if k = 4 then { lamports := 13, owner := splTokenId, data := .tokenData { owner := 77, amount := 100 } }
  else if k = 5 then { lamports := 40, owner := 0, data := .empty }
  else if k = 6 then { lamports := 14, owner := splTokenId, data := .tokenData { owner := 5, amount := 7 } }
  else if k = 7 then { lamports := 20, owner := 0, data := .escrowData ⟨true, 5, 4, 6, 50⟩ }
  else { lamports := 0, owner := 0, data := .empty }

def wAccountsX : List AccountRef :=
  [wTaker, wSend, wRecv, wTemp, wMain, wIRecv, wEsc, wTokenProg, wPdaAcc]

/-- Exchange fixture variant: the initializer's main account balance is
close enough to the 64-bit cap that reclaiming the record's rent overflows
(the close of the deposit account still fits). -/
def wStoreOvf : Store := fun k =>
  if k = 5 then { lamports := U64_MOD - 25, owner := 0, data := .empty } else wStoreX k

/-- Exchange fixture variant: the stored record names a different temporary
deposit account (key 44) than the one supplied. -/
def wStoreMis : Store := fun k =>
  if k = 7 then { lamports := 20, owner := 0, data := .escrowData ⟨true, 5, 44, 6, 50⟩ }
  else wStoreX k

/-- Exchange fixture variant: the escrow storage account is already closed
(zero balance, empty data). -/
def wStoreClosed : Store := fun k =>
  if k = 7 then { lamports := 0, owner := 0, data := .empty } else wStoreX k

/-- Init fixture: initializer 1 owns the deposit account 4 (100 units) and
the receive account 6 (owned by the token ledger); account 7 is fresh,
rent-exempt escrow storage. -/
def wStoreI : Store := fun k =>
  if k = 4 then { lamports := 13, owner := splTokenId, data := .tokenData { owner := 1, amount := 100 } }
  else if k = 6 then { lamports := 14, owner := splTokenId, data := .tokenData { owner := 5, amount := 0 } }
  else if k = 7 then { lamports := 20, owner := 0, data := .escrowData ⟨false, 0, 0, 0, 0⟩ }
  else { lamports := 0, owner := 0, data := .empty }

def wAccountsI : List AccountRef := [wIni, wTemp, wIRecv, wEsc, wRentAcc, wTokenProg]

/-- Init fixture variant: the escrow storage already holds an initialized
record. -/
def wStoreIdone : Store := fun k =>
  if k = 7 then { lamports := 20, owner := 0, data := .escrowData ⟨true, 1, 4, 6, 50⟩ }
  else wStoreI k

/-- Init fixture variant: the receive account is not owned by the token
ledger service. -/
def wStoreIBadOwner : Store := fun k =>
  if k = 6 then { lamports := 14, owner := 0, data := .empty } else wStoreI k

/-- Init fixture variant: the escrow storage balance is below the
rent-exemption threshold. -/
def wStoreIPoor : Store := fun k =>
  if k = 7 then { lamports := 3, owner := 0, data := .escrowData ⟨false, 0, 0, 0, 0⟩ }
  else wStoreI k

/-!  Theorems.  First the generic store and decomposition lemmas, then one
theorem per specification claim, each with its witness. -/

theorem Store.get_set_same (s : Store) (k : Pubkey) (a : Account) :
    Store.set s k a k = a := by
  simp [Store.set]

theorem Store.get_set_ne (s : Store) (k q : Pubkey) (a : Account)
    (h : q ≠ k) : Store.set s k a q = s q := by
  simp [Store.set, h]

/-- On a full-shape account list, process_exchange is exactly its validation
prefix followed by its settlement suffix; the validation prefix never
receives the taker's send and receive token accounts. -/
theorem processExchange_decomp (findPA : Pubkey → Pubkey × Nat) (s : Store)
    (tk snd rcv tmp main irecv esc tp : AccountRef) (rest : List AccountRef)
    (amt : Nat) (pid : Pubkey) :
    processExchange findPA s
        (tk :: snd :: rcv :: tmp :: main :: irecv :: esc :: tp :: rest) amt pid =
      match exchangeValidate findPA s tk tmp main irecv esc amt pid with
      | .error e => .error e
      | .ok c => exchangeEffects s c snd rcv rest := by
  by_cases hs : tk.is_signer
  · simp only [processExchange, exchangeValidate, hs, not_true_eq_false, if_false]
    cases htmp : TokenAccount.unpack (s tmp.key).data with
    | error e => simp
    | ok tempTok =>
      simp only []
      by_cases hamt : amt = tempTok.amount
      · simp only [hamt, ne_eq, not_true_eq_false, if_false]
        cases hesc : Escrow.unpack (s esc.key).data with
        | error e => simp
        | ok es =>
          simp only []
          by_cases h1 : es.temp_token_account_pubkey = tmp.key
          · simp only [h1, ne_eq, not_true_eq_false, if_false]
            by_cases h2 : es.initializer_pubkey = main.key
            · simp only [h2, ne_eq, not_true_eq_false, if_false]
              by_cases h3 : es.initializer_token_to_receive_account_pubkey = irecv.key
              · simp [h3, hs, exchangeEffects]
              · simp [h3]
            · simp [h2]
          · simp [h1]
      · simp [hamt]
  · simp [processExchange, exchangeValidate, hs]


/-- On a full-shape account list, process_init_escrow is exactly its
validation prefix followed by its effect suffix; the validation prefix never
receives the temporary deposit account or the instruction amount. -/
theorem processInitEscrow_decomp (findPA : Pubkey → Pubkey × Nat)
    (rent : Rent) (s : Store) (ini tmp rcv esc ra : AccountRef)
    (rest : List AccountRef) (amount : Nat) (pid : Pubkey) :
    processInitEscrow findPA rent s (ini :: tmp :: rcv :: esc :: ra :: rest) amount pid =
      match initValidate rent s ini rcv esc with
      | .error e => .error e
      | .ok _ => initEffects findPA s ini tmp rcv esc rest amount pid := by
  by_cases hs : ini.is_signer
  · simp only [processInitEscrow, initValidate, hs, not_true_eq_false, if_false]
    by_cases ho : (s rcv.key).owner = splTokenId
    · simp only [ho, ne_eq, not_true_eq_false, if_false]
      by_cases hr : rent.is_exempt (s esc.key).lamports (s esc.key).data.len
      · simp only [hr, not_true_eq_false, if_false]
        cases hu : Escrow.unpack_unchecked (s esc.key).data with
        | error e => simp
        | ok e0 =>
          simp only []
          by_cases hi : e0.is_initialized
          · simp [hi]
          · simp [hi, hs, initEffects]
      · simp [hr]
    · simp [ho]
  · simp [processInitEscrow, initValidate, hs]

/-- Core success-path computation for process_exchange. -/
theorem exchange_success_spec
    (findPA : Pubkey → Pubkey × Nat) (s : Store)
    (tk snd rcv tmp main irecv esc tp pdaAcc : AccountRef) (rest : List AccountRef)
    (amt : Nat) (pid : Pubkey)
    (sendTok irecvTok recvTok tempTok : TokenAccount) (es : Escrow)
    (hsig : tk.is_signer = true)
    (htmp : (s tmp.key).data = .tokenData tempTok)
    (hamt : amt = tempTok.amount)
    (hesc : (s esc.key).data = .escrowData es)
    (hini : es.is_initialized = true)
    (hk1 : es.temp_token_account_pubkey = tmp.key)
    (hk2 : es.initializer_pubkey = main.key)
    (hk3 : es.initializer_token_to_receive_account_pubkey = irecv.key)
    (hsnd : (s snd.key).data = .tokenData sendTok)
    (hirecv : (s irecv.key).data = .tokenData irecvTok)
    (hrcv : (s rcv.key).data = .tokenData recvTok)
    (hauth1 : sendTok.owner = tk.key)
    (hbal1 : es.expected_amount ≤ sendTok.amount)
    (hovf1 : irecvTok.amount + es.expected_amount < U64_MOD)
    (hauth2 : tempTok.owner = (findPA pid).1)
    (hovf2 : recvTok.amount + tempTok.amount < U64_MOD)
    (hovf3 : (s main.key).lamports + (s tmp.key).lamports + (s esc.key).lamports < U64_MOD)
    (hdist : List.Pairwise (fun x y => x ≠ y)
      [snd.key, rcv.key, tmp.key, main.key, irecv.key, esc.key]) :
    ∃ s2, processExchange findPA s
        (tk :: snd :: rcv :: tmp :: main :: irecv :: esc :: tp :: pdaAcc :: rest) amt pid
        = .ok s2 ∧
      s2 snd.key = { s snd.key with
        data := .tokenData { sendTok with amount := sendTok.amount - es.expected_amount } } ∧
      s2 irecv.key = { s irecv.key with
        data := .tokenData { irecvTok with amount := irecvTok.amount + es.expected_amount } } ∧
      s2 rcv.key = { s rcv.key with
        data := .tokenData { recvTok with amount := recvTok.amount + tempTok.amount } } ∧
      s2 tmp.key = { s tmp.key with lamports := 0, data := .empty } ∧
      s2 main.key = { s main.key with lamports :=
        (s main.key).lamports + (s tmp.key).lamports + (s esc.key).lamports } ∧
      s2 esc.key = { s esc.key with lamports := 0, data := .empty } ∧
      ∀ q, q ≠ snd.key → q ≠ rcv.key → q ≠ tmp.key → q ≠ main.key → q ≠ irecv.key →
        q ≠ esc.key → s2 q = s q := by
  have hd := hdist
  simp [List.pairwise_cons] at hd
  obtain ⟨⟨nsr, nst, nsm, nsi, nse⟩, ⟨nrt, nrm, nri, nre⟩, ⟨ntm, nti, nte⟩, ⟨nmi, nme⟩, nie⟩ := hd
  have hval : exchangeValidate findPA s tk tmp main irecv esc amt pid =
      .ok ⟨tk, tmp, main, irecv, esc, es, tempTok.amount, (findPA pid).1⟩ := by
    simp [exchangeValidate, hsig, htmp, TokenAccount.unpack, hamt, hesc,
      Escrow.unpack, Escrow.unpack_unchecked, hini, hk1, hk2, hk3]
  have htr1 : tokenTransfer s snd.key irecv.key tk.key tk.is_signer es.expected_amount =
      .ok ((Store.set s snd.key
        { s snd.key with
          data := .tokenData { sendTok with amount := sendTok.amount - es.expected_amount } }).set irecv.key
        { s irecv.key with
          data := .tokenData { irecvTok with amount := irecvTok.amount + es.expected_amount } }) := by
    simp [tokenTransfer, hsnd, hirecv, TokenAccount.unpack, hsig, hauth1,
      Nat.not_lt.mpr hbal1, nsi, not_le.mpr hovf1]
  set s1 : Store := (Store.set s snd.key
      { s snd.key with
        data := .tokenData { sendTok with amount := sendTok.amount - es.expected_amount } }).set irecv.key
      { s irecv.key with
        data := .tokenData { irecvTok with amount := irecvTok.amount + es.expected_amount } } with hs1def
  have h1snd : s1 snd.key = { s snd.key with
      data := .tokenData { sendTok with amount := sendTok.amount - es.expected_amount } } := by
    rw [hs1def, Store.get_set_ne _ _ _ _ nsi, Store.get_set_same]
  have h1irecv : s1 irecv.key = { s irecv.key with
      data := .tokenData { irecvTok with amount := irecvTok.amount + es.expected_amount } } := by
    rw [hs1def, Store.get_set_same]
  have h1tmp : s1 tmp.key = s tmp.key := by
    rw [hs1def, Store.get_set_ne _ _ _ _ nti, Store.get_set_ne _ _ _ _ (Ne.symm nst)]
  have h1rcv : s1 rcv.key = s rcv.key := by
    rw [hs1def, Store.get_set_ne _ _ _ _ nri, Store.get_set_ne _ _ _ _ (Ne.symm nsr)]
  have h1main : s1 main.key = s main.key := by
    rw [hs1def, Store.get_set_ne _ _ _ _ nmi, Store.get_set_ne _ _ _ _ (Ne.symm nsm)]
  have h1esc : s1 esc.key = s esc.key := by
    rw [hs1def, Store.get_set_ne _ _ _ _ (Ne.symm nie), Store.get_set_ne _ _ _ _ (Ne.symm nse)]
  have htr2 : tokenTransfer s1 tmp.key rcv.key (findPA pid).1 true tempTok.amount =
      .ok ((Store.set s1 tmp.key
        { s1 tmp.key with data := .tokenData { tempTok with amount := 0 } }).set rcv.key
        { s1 rcv.key with
          data := .tokenData { recvTok with amount := recvTok.amount + tempTok.amount } }) := by
    simp [tokenTransfer, h1tmp, h1rcv, htmp, hrcv, TokenAccount.unpack, hauth2,
      Ne.symm nrt, not_le.mpr hovf2]
  set s2m : Store := (Store.set s1 tmp.key
      { s1 tmp.key with data := .tokenData { tempTok with amount := 0 } }).set rcv.key
      { s1 rcv.key with
        data := .tokenData { recvTok with amount := recvTok.amount + tempTok.amount } } with hs2def
  have h2tmp : s2m tmp.key = { s tmp.key with data := .tokenData { tempTok with amount := 0 } } := by
    rw [hs2def, Store.get_set_ne _ _ _ _ (Ne.symm nrt), Store.get_set_same, h1tmp]
  have h2rcv : s2m rcv.key = { s rcv.key with
      data := .tokenData { recvTok with amount := recvTok.amount + tempTok.amount } } := by
    rw [hs2def, Store.get_set_same, h1rcv]
  have h2snd : s2m snd.key = s1 snd.key := by
    rw [hs2def, Store.get_set_ne _ _ _ _ nsr, Store.get_set_ne _ _ _ _ nst]
  have h2irecv : s2m irecv.key = s1 irecv.key := by
    rw [hs2def, Store.get_set_ne _ _ _ _ (Ne.symm nri), Store.get_set_ne _ _ _ _ (Ne.symm nti)]
  have h2main : s2m main.key = s main.key := by
    rw [hs2def, Store.get_set_ne _ _ _ _ (Ne.symm nrm), Store.get_set_ne _ _ _ _ (Ne.symm ntm), h1main]
  have h2esc : s2m esc.key = s esc.key := by
    rw [hs2def, Store.get_set_ne _ _ _ _ (Ne.symm nre), Store.get_set_ne _ _ _ _ (Ne.symm nte), h1esc]
  have hclosebound : (s2m main.key).lamports + (s2m tmp.key).lamports < U64_MOD := by
    rw [h2main, h2tmp]
    exact lt_of_le_of_lt (Nat.le_add_right _ _) hovf3
  have hclose : tokenCloseAccount s2m tmp.key main.key (findPA pid).1 true =
      .ok (Store.set (Store.set s2m main.key
        { s2m main.key with
          lamports := (s2m main.key).lamports + (s2m tmp.key).lamports }) tmp.key
        { s2m tmp.key with lamports := 0, data := .empty }) := by
    simp [tokenCloseAccount, h2tmp, TokenAccount.unpack, hauth2, not_le.mpr hclosebound,
      Store.get_set_ne _ _ _ _ ntm, h2main]
    exact lt_of_le_of_lt (Nat.le_add_right _ _) hovf3
  set s3m : Store := Store.set (Store.set s2m main.key
      { s2m main.key with
        lamports := (s2m main.key).lamports + (s2m tmp.key).lamports }) tmp.key
      { s2m tmp.key with lamports := 0, data := .empty } with hs3def
  have h3tmp : s3m tmp.key = { s tmp.key with lamports := 0, data := .empty } := by
    rw [hs3def, Store.get_set_same, h2tmp]
  have h3main : s3m main.key = { s main.key with
      lamports := (s main.key).lamports + (s tmp.key).lamports } := by
    rw [hs3def, Store.get_set_ne _ _ _ _ (Ne.symm ntm), Store.get_set_same, h2main, h2tmp]
  have h3esc : s3m esc.key = s esc.key := by
    rw [hs3def, Store.get_set_ne _ _ _ _ (Ne.symm nte), Store.get_set_ne _ _ _ _ (Ne.symm nme), h2esc]
  have h3snd : s3m snd.key = s1 snd.key := by
    rw [hs3def, Store.get_set_ne _ _ _ _ nst, Store.get_set_ne _ _ _ _ nsm, h2snd]
  have h3irecv : s3m irecv.key = s1 irecv.key := by
    rw [hs3def, Store.get_set_ne _ _ _ _ (Ne.symm nti), Store.get_set_ne _ _ _ _ (Ne.symm nmi), h2irecv]
  have h3rcv : s3m rcv.key = s2m rcv.key := by
    rw [hs3def, Store.get_set_ne _ _ _ _ nrt, Store.get_set_ne _ _ _ _ nrm]
  have hfinbound : ¬ U64_MOD ≤ (s3m main.key).lamports + (s3m esc.key).lamports := by
    rw [h3main, h3esc]
    exact not_le.mpr hovf3
  have hrun : processExchange findPA s
      (tk :: snd :: rcv :: tmp :: main :: irecv :: esc :: tp :: pdaAcc :: rest) amt pid =
      .ok (Store.set (Store.set s3m main.key
        { s3m main.key with
          lamports := (s3m main.key).lamports + (s3m esc.key).lamports }) esc.key
        { (Store.set s3m main.key
          { s3m main.key with
            lamports := (s3m main.key).lamports + (s3m esc.key).lamports }) esc.key with
          lamports := 0, data := .empty }) := by
    rw [processExchange_decomp findPA s tk snd rcv tmp main irecv esc tp (pdaAcc :: rest) amt pid,
      hval]
    simp only [exchangeEffects]
    rw [htr1]
    simp only []
    rw [htr2]
    simp only []
    rw [hclose]
    simp only [hs3def]
    rw [if_neg hfinbound]
  set s4f : Store := Store.set s3m main.key
    { s3m main.key with
      lamports := (s3m main.key).lamports + (s3m esc.key).lamports } with hs4def
  set s5f : Store := Store.set s4f esc.key
    { s4f esc.key with lamports := 0, data := .empty } with hs5def
  refine ⟨s5f, hrun, ?_, ?_, ?_, ?_, ?_, ?_, ?_⟩
  · rw [hs5def, Store.get_set_ne _ _ _ _ nse, hs4def, Store.get_set_ne _ _ _ _ nsm,
      h3snd, h1snd]
  · rw [hs5def, Store.get_set_ne _ _ _ _ nie, hs4def,
      Store.get_set_ne _ _ _ _ (Ne.symm nmi), h3irecv, h1irecv]
  · rw [hs5def, Store.get_set_ne _ _ _ _ nre, hs4def, Store.get_set_ne _ _ _ _ nrm,
      h3rcv, h2rcv]
  · rw [hs5def, Store.get_set_ne _ _ _ _ nte, hs4def, Store.get_set_ne _ _ _ _ ntm, h3tmp]
  · rw [hs5def, Store.get_set_ne _ _ _ _ nme, hs4def, Store.get_set_same,
      h3main, h3esc]
  · rw [hs5def, Store.get_set_same, hs4def, Store.get_set_ne _ _ _ _ (Ne.symm nme), h3esc]
  · intro q hq1 hq2 hq3 hq4 hq5 hq6
    rw [hs5def, Store.get_set_ne _ _ _ _ hq6, hs4def, Store.get_set_ne _ _ _ _ hq4,
      hs3def, Store.get_set_ne _ _ _ _ hq3, Store.get_set_ne _ _ _ _ hq4,
      hs2def, Store.get_set_ne _ _ _ _ hq2, Store.get_set_ne _ _ _ _ hq3,
      hs1def, Store.get_set_ne _ _ _ _ hq5, Store.get_set_ne _ _ _ _ hq1]

/-- Core overflow-path computation for process_exchange: every step up to
the final rent reclaim succeeds, but adding the escrow storage balance to
the initializer main balance would exceed the 64-bit cap. -/
theorem exchange_overflow_spec
    (findPA : Pubkey → Pubkey × Nat) (s : Store)
    (tk snd rcv tmp main irecv esc tp pdaAcc : AccountRef) (rest : List AccountRef)
    (amt : Nat) (pid : Pubkey)
    (sendTok irecvTok recvTok tempTok : TokenAccount) (es : Escrow)
    (hsig : tk.is_signer = true)
    (htmp : (s tmp.key).data = .tokenData tempTok)
    (hamt : amt = tempTok.amount)
    (hesc : (s esc.key).data = .escrowData es)
    (hini : es.is_initialized = true)
    (hk1 : es.temp_token_account_pubkey = tmp.key)
    (hk2 : es.initializer_pubkey = main.key)
    (hk3 : es.initializer_token_to_receive_account_pubkey = irecv.key)
    (hsnd : (s snd.key).data = .tokenData sendTok)
    (hirecv : (s irecv.key).data = .tokenData irecvTok)
    (hrcv : (s rcv.key).data = .tokenData recvTok)
    (hauth1 : sendTok.owner = tk.key)
    (hbal1 : es.expected_amount ≤ sendTok.amount)
    (hovf1 : irecvTok.amount + es.expected_amount < U64_MOD)
    (hauth2 : tempTok.owner = (findPA pid).1)
    (hovf2 : recvTok.amount + tempTok.amount < U64_MOD)
    (hovf3a : (s main.key).lamports + (s tmp.key).lamports < U64_MOD)
    (hovfbad : U64_MOD ≤ (s main.key).lamports + (s tmp.key).lamports + (s esc.key).lamports)
    (hdist : List.Pairwise (fun x y => x ≠ y)
      [snd.key, rcv.key, tmp.key, main.key, irecv.key, esc.key]) :
    processExchange findPA s
        (tk :: snd :: rcv :: tmp :: main :: irecv :: esc :: tp :: pdaAcc :: rest) amt pid
        = .error .AmountOverflow := by
  have hd := hdist
  simp [List.pairwise_cons] at hd
  obtain ⟨⟨nsr, nst, nsm, nsi, nse⟩, ⟨nrt, nrm, nri, nre⟩, ⟨ntm, nti, nte⟩, ⟨nmi, nme⟩, nie⟩ := hd
  have hval : exchangeValidate findPA s tk tmp main irecv esc amt pid =
      .ok ⟨tk, tmp, main, irecv, esc, es, tempTok.amount, (findPA pid).1⟩ := by
    simp [exchangeValidate, hsig, htmp, TokenAccount.unpack, hamt, hesc,
      Escrow.unpack, Escrow.unpack_unchecked, hini, hk1, hk2, hk3]
  have htr1 : tokenTransfer s snd.key irecv.key tk.key tk.is_signer es.expected_amount =
      .ok ((Store.set s snd.key
        { s snd.key with
          data := .tokenData { sendTok with amount := sendTok.amount - es.expected_amount } }).set irecv.key
        { s irecv.key with
          data := .tokenData { irecvTok with amount := irecvTok.amount + es.expected_amount } }) := by
    simp [tokenTransfer, hsnd, hirecv, TokenAccount.unpack, hsig, hauth1,
      Nat.not_lt.mpr hbal1, nsi, not_le.mpr hovf1]
  set s1 : Store := (Store.set s snd.key
      { s snd.key with
        data := .tokenData { sendTok with amount := sendTok.amount - es.expected_amount } }).set irecv.key
      { s irecv.key with
        data := .tokenData { irecvTok with amount := irecvTok.amount + es.expected_amount } } with hs1def
  have h1snd : s1 snd.key = { s snd.key with
      data := .tokenData { sendTok with amount := sendTok.amount - es.expected_amount } } := by
    rw [hs1def, Store.get_set_ne _ _ _ _ nsi, Store.get_set_same]
  have h1irecv : s1 irecv.key = { s irecv.key with
      data := .tokenData { irecvTok with amount := irecvTok.amount + es.expected_amount } } := by
    rw [hs1def, Store.get_set_same]
  have h1tmp : s1 tmp.key = s tmp.key := by
    rw [hs1def, Store.get_set_ne _ _ _ _ nti, Store.get_set_ne _ _ _ _ (Ne.symm nst)]
  have h1rcv : s1 rcv.key = s rcv.key := by
    rw [hs1def, Store.get_set_ne _ _ _ _ nri, Store.get_set_ne _ _ _ _ (Ne.symm nsr)]
  have h1main : s1 main.key = s main.key := by
    rw [hs1def, Store.get_set_ne _ _ _ _ nmi, Store.get_set_ne _ _ _ _ (Ne.symm nsm)]
  have h1esc : s1 esc.key = s esc.key := by
    rw [hs1def, Store.get_set_ne _ _ _ _ (Ne.symm nie), Store.get_set_ne _ _ _ _ (Ne.symm nse)]
  have htr2 : tokenTransfer s1 tmp.key rcv.key (findPA pid).1 true tempTok.amount =
      .ok ((Store.set s1 tmp.key
        { s1 tmp.key with data := .tokenData { tempTok with amount := 0 } }).set rcv.key
        { s1 rcv.key with
          data := .tokenData { recvTok with amount := recvTok.amount + tempTok.amount } }) := by
    simp [tokenTransfer, h1tmp, h1rcv, htmp, hrcv, TokenAccount.unpack, hauth2,
      Ne.symm nrt, not_le.mpr hovf2]
  set s2m : Store := (Store.set s1 tmp.key
      { s1 tmp.key with data := .tokenData { tempTok with amount := 0 } }).set rcv.key
      { s1 rcv.key with
        data := .tokenData { recvTok with amount := recvTok.amount + tempTok.amount } } with hs2def
  have h2tmp : s2m tmp.key = { s tmp.key with data := .tokenData { tempTok with amount := 0 } } := by
    rw [hs2def, Store.get_set_ne _ _ _ _ (Ne.symm nrt), Store.get_set_same, h1tmp]
  have h2rcv : s2m rcv.key = { s rcv.key with
      data := .tokenData { recvTok with amount := recvTok.amount + tempTok.amount } } := by
    rw [hs2def, Store.get_set_same, h1rcv]
  have h2snd : s2m snd.key = s1 snd.key := by
    rw [hs2def, Store.get_set_ne _ _ _ _ nsr, Store.get_set_ne _ _ _ _ nst]
  have h2irecv : s2m irecv.key = s1 irecv.key := by
    rw [hs2def, Store.get_set_ne _ _ _ _ (Ne.symm nri), Store.get_set_ne _ _ _ _ (Ne.symm nti)]
  have h2main : s2m main.key = s main.key := by
    rw [hs2def, Store.get_set_ne _ _ _ _ (Ne.symm nrm), Store.get_set_ne _ _ _ _ (Ne.symm ntm), h1main]
  have h2esc : s2m esc.key = s esc.key := by
    rw [hs2def, Store.get_set_ne _ _ _ _ (Ne.symm nre), Store.get_set_ne _ _ _ _ (Ne.symm nte), h1esc]
  have hclosebound : (s2m main.key).lamports + (s2m tmp.key).lamports < U64_MOD := by
    rw [h2main, h2tmp]
    exact hovf3a
  have hclose : tokenCloseAccount s2m tmp.key main.key (findPA pid).1 true =
      .ok (Store.set (Store.set s2m main.key
        { s2m main.key with
          lamports := (s2m main.key).lamports + (s2m tmp.key).lamports }) tmp.key
        { s2m tmp.key with lamports := 0, data := .empty }) := by
    simp [tokenCloseAccount, h2tmp, TokenAccount.unpack, hauth2, not_le.mpr hclosebound,
      Store.get_set_ne _ _ _ _ ntm, h2main]
    exact hovf3a
  set s3m : Store := Store.set (Store.set s2m main.key
      { s2m main.key with
        lamports := (s2m main.key).lamports + (s2m tmp.key).lamports }) tmp.key
      { s2m tmp.key with lamports := 0, data := .empty } with hs3def
  have h3tmp : s3m tmp.key = { s tmp.key with lamports := 0, data := .empty } := by
    rw [hs3def, Store.get_set_same, h2tmp]
  have h3main : s3m main.key = { s main.key with
      lamports := (s main.key).lamports + (s tmp.key).lamports } := by
    rw [hs3def, Store.get_set_ne _ _ _ _ (Ne.symm ntm), Store.get_set_same, h2main, h2tmp]
  have h3esc : s3m esc.key = s esc.key := by
    rw [hs3def, Store.get_set_ne _ _ _ _ (Ne.symm nte), Store.get_set_ne _ _ _ _ (Ne.symm nme), h2esc]
  have hfinbad : U64_MOD ≤ (s3m main.key).lamports + (s3m esc.key).lamports := by
    rw [h3main, h3esc]
    simpa using hovfbad
  rw [processExchange_decomp findPA s tk snd rcv tmp main irecv esc tp (pdaAcc :: rest) amt pid,
    hval]
  simp only [exchangeEffects]
  rw [htr1]
  simp only []
  rw [htr2]
  simp only []
  rw [hclose]
  simp only [hs3def]
  rw [if_pos hfinbad]


/-- If the escrow record storage reads back empty (as it does after a close),
the Exchange validation prefix can never succeed: the record no longer
decodes as an open record. -/
theorem exchangeValidate_closed_never_ok (findPA : Pubkey → Pubkey × Nat)
    (s : Store) (tk tmp main irecv esc : AccountRef) (amt : Nat) (pid : Pubkey)
    (c : ExchChecked) (hempty : (s esc.key).data = .empty)
    (h : exchangeValidate findPA s tk tmp main irecv esc amt pid = .ok c) :
    False := by
  simp only [exchangeValidate, hempty, Escrow.unpack, Escrow.unpack_unchecked] at h
  repeat' split at h
  all_goals exact Except.noConfusion h

/-- A successful Exchange validation records exactly the supplied escrow
storage reference. -/
theorem exchangeValidate_ok_escrow (findPA : Pubkey → Pubkey × Nat)
    (s : Store) (tk tmp main irecv esc : AccountRef) (amt : Nat) (pid : Pubkey)
    (c : ExchChecked)
    (h : exchangeValidate findPA s tk tmp main irecv esc amt pid = .ok c) :
    c.escrow_account = esc := by
  simp only [exchangeValidate] at h
  repeat' split at h
  all_goals first
    | exact Except.noConfusion h
    | (injection h with h; subst h; rfl)

/-- Whatever else happens, a successful Exchange settlement suffix ends by
zeroing the escrow storage: zero balance and empty data. -/
theorem exchangeEffects_ok_closed (s : Store) (c : ExchChecked)
    (snd rcv : AccountRef) (rest : List AccountRef) (s2 : Store)
    (h : exchangeEffects s c snd rcv rest = .ok s2) :
    (s2 c.escrow_account.key).lamports = 0 ∧
      (s2 c.escrow_account.key).data = .empty := by
  simp only [exchangeEffects] at h
  repeat' split at h
  all_goals first
    | exact Except.noConfusion h
    | (injection h with h; subst h; constructor <;> simp [Store.get_set_same])

/-- A successful Exchange run closes the supplied escrow storage account:
zero balance and empty (zeroed) data. -/
theorem processExchange_ok_closes (findPA : Pubkey → Pubkey × Nat) (s : Store)
    (tk snd rcv tmp main irecv esc tp : AccountRef) (rest : List AccountRef)
    (amt : Nat) (pid : Pubkey) (s2 : Store)
    (h : processExchange findPA s
      (tk :: snd :: rcv :: tmp :: main :: irecv :: esc :: tp :: rest) amt pid = .ok s2) :
    (s2 esc.key).lamports = 0 ∧ (s2 esc.key).data = .empty := by
  rw [processExchange_decomp] at h
  cases hv : exchangeValidate findPA s tk tmp main irecv esc amt pid with
  | error e => rw [hv] at h; exact Except.noConfusion h
  | ok c =>
    rw [hv] at h
    simp only [] at h
    have hce := exchangeValidate_ok_escrow findPA s tk tmp main irecv esc amt pid c hv
    have hcl := exchangeEffects_ok_closed s c snd rcv rest s2 h
    rw [hce] at hcl
    exact hcl

/-- A successful Init run persists the record verbatim: initialized, with
exactly the supplied initializer, temporary deposit account, receive
account and amount. -/
theorem processInitEscrow_ok_record (findPA : Pubkey → Pubkey × Nat)
    (rent : Rent) (s : Store) (ini tmp rcv esc ra : AccountRef)
    (rest : List AccountRef) (amount : Nat) (pid : Pubkey) (s2 : Store)
    (h : processInitEscrow findPA rent s (ini :: tmp :: rcv :: esc :: ra :: rest)
      amount pid = .ok s2) :
    (s2 esc.key).data = .escrowData
      { is_initialized := true
        initializer_pubkey := ini.key
        temp_token_account_pubkey := tmp.key
        initializer_token_to_receive_account_pubkey := rcv.key
        expected_amount := amount } := by
  rw [processInitEscrow_decomp] at h
  cases hv : initValidate rent s ini rcv esc with
  | error e => rw [hv] at h; exact Except.noConfusion h
  | ok pre =>
    rw [hv] at h
    simp only [initEffects, Escrow.pack] at h
    split at h
    · exact Except.noConfusion h
    · simp only [tokenSetAuthority] at h
      split at h
      · exact Except.noConfusion h
      · rename_i ta hta
        split at h
        · exact Except.noConfusion h
        · split at h
          · exact Except.noConfusion h
          · injection h with h
            subst h
            by_cases hte : tmp.key = esc.key
            · rw [hte, Store.get_set_same] at hta
              simp [TokenAccount.unpack] at hta
            · rw [Store.get_set_ne _ _ _ _ (Ne.symm hte), Store.get_set_same]


/-- C2: for every Exchange call where the taker signed but the declared
expected amount differs from the actual current balance of the custodied
temporary deposit account, the call fails with ExpectedAmountMismatch; the
check precedes every transfer, so the committed state is unchanged. -/
theorem C2_amount_mismatch_rejected (findPA : Pubkey → Pubkey × Nat)
    (s : Store) (tk snd rcv tmp : AccountRef) (rest : List AccountRef)
    (amt : Nat) (pid : Pubkey) (tempTok : TokenAccount)
    (hsig : tk.is_signer = true)
    (htmp : (s tmp.key).data = .tokenData tempTok)
    (hne : amt ≠ tempTok.amount) :
    processExchange findPA s (tk :: snd :: rcv :: tmp :: rest) amt pid =
      .error .ExpectedAmountMismatch ∧
    runExchange findPA s (tk :: snd :: rcv :: tmp :: rest) amt pid = s := by
  have h1 : processExchange findPA s (tk :: snd :: rcv :: tmp :: rest) amt pid =
      .error .ExpectedAmountMismatch := by
    simp [processExchange, hsig, htmp, TokenAccount.unpack, hne]
  exact ⟨h1, by simp [runExchange, h1]⟩

/-- C3: for every Exchange call that reaches the record cross-checks, if the
record's stored temp-account key, initializer key, or initializer-receive
key differs from the corresponding supplied account, the call fails with
InvalidAccountData before any transfer; all three checks are performed. -/
theorem C3_record_crosscheck_rejected (findPA : Pubkey → Pubkey × Nat)
    (s : Store) (tk snd rcv tmp main irecv esc : AccountRef)
    (rest : List AccountRef) (amt : Nat) (pid : Pubkey)
    (tempTok : TokenAccount) (es : Escrow)
    (hsig : tk.is_signer = true)
    (htmp : (s tmp.key).data = .tokenData tempTok)
    (hamt : amt = tempTok.amount)
    (hesc : (s esc.key).data = .escrowData es)
    (hini : es.is_initialized = true)
    (hmis : es.temp_token_account_pubkey ≠ tmp.key ∨
      es.initializer_pubkey ≠ main.key ∨
      es.initializer_token_to_receive_account_pubkey ≠ irecv.key) :
    processExchange findPA s (tk :: snd :: rcv :: tmp :: main :: irecv :: esc :: rest)
      amt pid = .error .InvalidAccountData ∧
    runExchange findPA s (tk :: snd :: rcv :: tmp :: main :: irecv :: esc :: rest)
      amt pid = s := by
  have h1 : processExchange findPA s
      (tk :: snd :: rcv :: tmp :: main :: irecv :: esc :: rest) amt pid =
      .error .InvalidAccountData := by
    rcases hmis with h | h | h
    · simp [processExchange, hsig, htmp, TokenAccount.unpack, hamt, hesc,
        Escrow.unpack, Escrow.unpack_unchecked, hini, h]
    · by_cases h1 : es.temp_token_account_pubkey = tmp.key <;>
        simp [processExchange, hsig, htmp, TokenAccount.unpack, hamt, hesc,
          Escrow.unpack, Escrow.unpack_unchecked, hini, h, h1]
    · by_cases h1 : es.temp_token_account_pubkey = tmp.key <;>
        by_cases h2 : es.initializer_pubkey = main.key <;>
        simp [processExchange, hsig, htmp, TokenAccount.unpack, hamt, hesc,
          Escrow.unpack, Escrow.unpack_unchecked, hini, h, h1, h2]
  exact ⟨h1, by simp [runExchange, h1]⟩

/-- C5: every Init validation failure (missing signature, receive account
not owned by the ledger service, storage not rent-exempt, record already
initialized) aborts with the matching error before any storage write or
delegation call, leaving the committed state byte-identical. -/
theorem C5_init_validation_failures_no_write :
    (∀ (findPA : Pubkey → Pubkey × Nat) (rent : Rent) (s : Store)
      (ini : AccountRef) (rest : List AccountRef) (amount : Nat) (pid : Pubkey),
      ini.is_signer = false →
      processInitEscrow findPA rent s (ini :: rest) amount pid =
        .error .MissingRequiredSignature ∧
      runInitEscrow findPA rent s (ini :: rest) amount pid = s)
    ∧ (∀ (findPA : Pubkey → Pubkey × Nat) (rent : Rent) (s : Store)
      (ini tmp rcv : AccountRef) (rest : List AccountRef) (amount : Nat) (pid : Pubkey),
      ini.is_signer = true → (s rcv.key).owner ≠ splTokenId →
      processInitEscrow findPA rent s (ini :: tmp :: rcv :: rest) amount pid =
        .error .IncorrectProgramId ∧
      runInitEscrow findPA rent s (ini :: tmp :: rcv :: rest) amount pid = s)
    ∧ (∀ (findPA : Pubkey → Pubkey × Nat) (rent : Rent) (s : Store)
      (ini tmp rcv esc ra : AccountRef) (rest : List AccountRef) (amount : Nat) (pid : Pubkey),
      ini.is_signer = true → (s rcv.key).owner = splTokenId →
      rent.is_exempt (s esc.key).lamports (s esc.key).data.len = false →
      processInitEscrow findPA rent s (ini :: tmp :: rcv :: esc :: ra :: rest) amount pid =
        .error .NotRentExempt ∧
      runInitEscrow findPA rent s (ini :: tmp :: rcv :: esc :: ra :: rest) amount pid = s)
    ∧ (∀ (findPA : Pubkey → Pubkey × Nat) (rent : Rent) (s : Store)
      (ini tmp rcv esc ra : AccountRef) (rest : List AccountRef) (amount : Nat)
      (pid : Pubkey) (es0 : Escrow),
      ini.is_signer = true → (s rcv.key).owner = splTokenId →
      rent.is_exempt (s esc.key).lamports (s esc.key).data.len = true →
      (s esc.key).data = .escrowData es0 → es0.is_initialized = true →
      processInitEscrow findPA rent s (ini :: tmp :: rcv :: esc :: ra :: rest) amount pid =
        .error .AccountAlreadyInitialized ∧
      runInitEscrow findPA rent s (ini :: tmp :: rcv :: esc :: ra :: rest) amount pid = s) := by
  refine ⟨?_, ?_, ?_, ?_⟩
  · intro findPA rent s ini rest amount pid hsig
    have h1 : processInitEscrow findPA rent s (ini :: rest) amount pid =
        .error .MissingRequiredSignature := by
      cases rest <;> simp [processInitEscrow, hsig]
    exact ⟨h1, by simp [runInitEscrow, h1]⟩
  · intro findPA rent s ini tmp rcv rest amount pid hsig hown
    have h1 : processInitEscrow findPA rent s (ini :: tmp :: rcv :: rest) amount pid =
        .error .IncorrectProgramId := by
      cases rest <;> simp [processInitEscrow, hsig, hown]
    exact ⟨h1, by simp [runInitEscrow, h1]⟩
  · intro findPA rent s ini tmp rcv esc ra rest amount pid hsig hown hrent
    have h1 : processInitEscrow findPA rent s
        (ini :: tmp :: rcv :: esc :: ra :: rest) amount pid = .error .NotRentExempt := by
      simp [processInitEscrow, hsig, hown, hrent]
    exact ⟨h1, by simp [runInitEscrow, h1]⟩
  · intro findPA rent s ini tmp rcv esc ra rest amount pid es0 hsig hown hrent hdec hfi
    have hrent2 : rent.is_exempt (s esc.key).lamports
        (AccountData.escrowData es0).len = true := by
      rw [← hdec]; exact hrent
    have h1 : processInitEscrow findPA rent s
        (ini :: tmp :: rcv :: esc :: ra :: rest) amount pid =
        .error .AccountAlreadyInitialized := by
      simp [processInitEscrow, hsig, hown, hrent, hrent2, hdec, Escrow.unpack_unchecked, hfi]
    exact ⟨h1, by simp [runInitEscrow, h1]⟩


/-- C4: a valid Init call persists a record with is_initialized true whose
four fields exactly equal the inputs (initializer key, temp deposit key,
receive key, amount); an Init call on storage whose record is already
initialized fails with AccountAlreadyInitialized and commits nothing. -/
theorem C4_init_record_fields (findPA : Pubkey → Pubkey × Nat) (rent : Rent)
    (s : Store) (ini tmp rcv esc ra tp : AccountRef) (rest : List AccountRef)
    (amount : Nat) (pid : Pubkey) (es0 : Escrow)
    (hsig : ini.is_signer = true)
    (hown : (s rcv.key).owner = splTokenId)
    (hrent : rent.is_exempt (s esc.key).lamports (s esc.key).data.len = true)
    (hdec : (s esc.key).data = .escrowData es0) :
    (es0.is_initialized = true →
      processInitEscrow findPA rent s (ini :: tmp :: rcv :: esc :: ra :: tp :: rest)
        amount pid = .error .AccountAlreadyInitialized ∧
      runInitEscrow findPA rent s (ini :: tmp :: rcv :: esc :: ra :: tp :: rest)
        amount pid = s)
    ∧ (es0.is_initialized = false →
      ∀ tempTok : TokenAccount, (s tmp.key).data = .tokenData tempTok →
      tempTok.owner = ini.key → tmp.key ≠ esc.key →
      ∃ s2, processInitEscrow findPA rent s (ini :: tmp :: rcv :: esc :: ra :: tp :: rest)
          amount pid = .ok s2 ∧
        (s2 esc.key).data = .escrowData
          { is_initialized := true
            initializer_pubkey := ini.key
            temp_token_account_pubkey := tmp.key
            initializer_token_to_receive_account_pubkey := rcv.key
            expected_amount := amount }) := by
  have hrent2 : rent.is_exempt (s esc.key).lamports
      (AccountData.escrowData es0).len = true := by
    rw [← hdec]; exact hrent
  constructor
  · intro hfi
    have h1 : processInitEscrow findPA rent s
        (ini :: tmp :: rcv :: esc :: ra :: tp :: rest) amount pid =
        .error .AccountAlreadyInitialized := by
      simp [processInitEscrow, hsig, hown, hrent, hrent2, hdec,
        Escrow.unpack_unchecked, hfi]
    exact ⟨h1, by simp [runInitEscrow, h1]⟩
  · intro hfi tempTok htd hto hne
    have hrun : processInitEscrow findPA rent s
        (ini :: tmp :: rcv :: esc :: ra :: tp :: rest) amount pid =
        .ok (Store.set (Store.set s esc.key
          { s esc.key with
            data := .escrowData ⟨true, ini.key, tmp.key, rcv.key, amount⟩ }) tmp.key
          { s tmp.key with
            data := .tokenData { tempTok with owner := (findPA pid).1 } }) := by
      simp [processInitEscrow, hsig, hown, hrent, hrent2, hdec,
        Escrow.unpack_unchecked, hfi, Escrow.pack, tokenSetAuthority,
        Store.get_set_ne _ _ _ _ hne, htd, TokenAccount.unpack, hto]
    refine ⟨_, hrun, ?_⟩
    rw [Store.get_set_ne _ _ _ _ (Ne.symm hne), Store.get_set_same]


/-- C1: for every Exchange call whose validation steps all pass (taker
signed, declared amount equal to the custodied balance, record cross-checks
satisfied) and whose settlement legs are executable, over pairwise-distinct
settlement accounts, the net state change is exactly: taker's send account
down by the record's expected_amount, initializer's receive account up by
the same, the deposit account's full balance moved to taker's receive
account and the deposit account closed with zero balance, the initializer's
main account credited with both reclaimed rent balances, the escrow record
storage zeroed, and every other account untouched. -/
theorem C1_exchange_net_effect
    (findPA : Pubkey → Pubkey × Nat) (s : Store)
    (tk snd rcv tmp main irecv esc tp pdaAcc : AccountRef) (rest : List AccountRef)
    (amt : Nat) (pid : Pubkey)
    (sendTok irecvTok recvTok tempTok : TokenAccount) (es : Escrow)
    (hsig : tk.is_signer = true)
    (htmp : (s tmp.key).data = .tokenData tempTok)
    (hamt : amt = tempTok.amount)
    (hesc : (s esc.key).data = .escrowData es)
    (hini : es.is_initialized = true)
    (hk1 : es.temp_token_account_pubkey = tmp.key)
    (hk2 : es.initializer_pubkey = main.key)
    (hk3 : es.initializer_token_to_receive_account_pubkey = irecv.key)
    (hsnd : (s snd.key).data = .tokenData sendTok)
    (hirecv : (s irecv.key).data = .tokenData irecvTok)
    (hrcv : (s rcv.key).data = .tokenData recvTok)
    (hauth1 : sendTok.owner = tk.key)
    (hbal1 : es.expected_amount ≤ sendTok.amount)
    (hovf1 : irecvTok.amount + es.expected_amount < U64_MOD)
    (hauth2 : tempTok.owner = (findPA pid).1)
    (hovf2 : recvTok.amount + tempTok.amount < U64_MOD)
    (hovf3 : (s main.key).lamports + (s tmp.key).lamports + (s esc.key).lamports < U64_MOD)
    (hdist : List.Pairwise (fun x y => x ≠ y)
      [snd.key, rcv.key, tmp.key, main.key, irecv.key, esc.key]) :
    ∃ s2, processExchange findPA s
        (tk :: snd :: rcv :: tmp :: main :: irecv :: esc :: tp :: pdaAcc :: rest) amt pid
        = .ok s2 ∧
      s2 snd.key = { s snd.key with
        data := .tokenData { sendTok with amount := sendTok.amount - es.expected_amount } } ∧
      s2 irecv.key = { s irecv.key with
        data := .tokenData { irecvTok with amount := irecvTok.amount + es.expected_amount } } ∧
      s2 rcv.key = { s rcv.key with
        data := .tokenData { recvTok with amount := recvTok.amount + tempTok.amount } } ∧
      s2 tmp.key = { s tmp.key with lamports := 0, data := .empty } ∧
      s2 main.key = { s main.key with lamports :=
        (s main.key).lamports + (s tmp.key).lamports + (s esc.key).lamports } ∧
      s2 esc.key = { s esc.key with lamports := 0, data := .empty } ∧
      ∀ q, q ≠ snd.key → q ≠ rcv.key → q ≠ tmp.key → q ≠ main.key → q ≠ irecv.key →
        q ≠ esc.key → s2 q = s q :=
  exchange_success_spec findPA s tk snd rcv tmp main irecv esc tp pdaAcc rest amt pid
    sendTok irecvTok recvTok tempTok es hsig htmp hamt hesc hini hk1 hk2 hk3
    hsnd hirecv hrcv hauth1 hbal1 hovf1 hauth2 hovf2 hovf3 hdist

/-- C6: in a successful Exchange, the quantity moved from the taker's send
account to the initializer's receive account is the record's expected_amount
persisted at init time, not the amount argument the taker declared in the
Exchange instruction. -/
theorem C6_transfer_uses_recorded_amount
    (findPA : Pubkey → Pubkey × Nat) (s : Store)
    (tk snd rcv tmp main irecv esc tp pdaAcc : AccountRef) (rest : List AccountRef)
    (amt : Nat) (pid : Pubkey)
    (sendTok irecvTok recvTok tempTok : TokenAccount) (es : Escrow)
    (hsig : tk.is_signer = true)
    (htmp : (s tmp.key).data = .tokenData tempTok)
    (hamt : amt = tempTok.amount)
    (hesc : (s esc.key).data = .escrowData es)
    (hini : es.is_initialized = true)
    (hk1 : es.temp_token_account_pubkey = tmp.key)
    (hk2 : es.initializer_pubkey = main.key)
    (hk3 : es.initializer_token_to_receive_account_pubkey = irecv.key)
    (hsnd : (s snd.key).data = .tokenData sendTok)
    (hirecv : (s irecv.key).data = .tokenData irecvTok)
    (hrcv : (s rcv.key).data = .tokenData recvTok)
    (hauth1 : sendTok.owner = tk.key)
    (hbal1 : es.expected_amount ≤ sendTok.amount)
    (hovf1 : irecvTok.amount + es.expected_amount < U64_MOD)
    (hauth2 : tempTok.owner = (findPA pid).1)
    (hovf2 : recvTok.amount + tempTok.amount < U64_MOD)
    (hovf3 : (s main.key).lamports + (s tmp.key).lamports + (s esc.key).lamports < U64_MOD)
    (hdist : List.Pairwise (fun x y => x ≠ y)
      [snd.key, rcv.key, tmp.key, main.key, irecv.key, esc.key]) :
    ∃ s2, processExchange findPA s
        (tk :: snd :: rcv :: tmp :: main :: irecv :: esc :: tp :: pdaAcc :: rest) amt pid
        = .ok s2 ∧
      (s2 irecv.key).data =
        .tokenData { irecvTok with amount := irecvTok.amount + es.expected_amount } ∧
      (s2 snd.key).data =
        .tokenData { sendTok with amount := sendTok.amount - es.expected_amount } := by
  obtain ⟨s2, hrun, hsnd2, hirecv2, -⟩ :=
    exchange_success_spec findPA s tk snd rcv tmp main irecv esc tp pdaAcc rest amt pid
      sendTok irecvTok recvTok tempTok es hsig htmp hamt hesc hini hk1 hk2 hk3
      hsnd hirecv hrcv hauth1 hbal1 hovf1 hauth2 hovf2 hovf3 hdist
  exact ⟨s2, hrun, by rw [hirecv2], by rw [hsnd2]⟩

/-- C7: the rent reclaim that credits the escrow storage balance to the
initializer's main account uses overflow-checked addition: when the sum
would reach 2^64 the call fails with AmountOverflow instead of wrapping,
and on success the escrow storage balance is set to zero. -/
theorem C7_rent_reclaim_overflow_checked
    (findPA : Pubkey → Pubkey × Nat) (s : Store)
    (tk snd rcv tmp main irecv esc tp pdaAcc : AccountRef) (rest : List AccountRef)
    (amt : Nat) (pid : Pubkey)
    (sendTok irecvTok recvTok tempTok : TokenAccount) (es : Escrow)
    (hsig : tk.is_signer = true)
    (htmp : (s tmp.key).data = .tokenData tempTok)
    (hamt : amt = tempTok.amount)
    (hesc : (s esc.key).data = .escrowData es)
    (hini : es.is_initialized = true)
    (hk1 : es.temp_token_account_pubkey = tmp.key)
    (hk2 : es.initializer_pubkey = main.key)
    (hk3 : es.initializer_token_to_receive_account_pubkey = irecv.key)
    (hsnd : (s snd.key).data = .tokenData sendTok)
    (hirecv : (s irecv.key).data = .tokenData irecvTok)
    (hrcv : (s rcv.key).data = .tokenData recvTok)
    (hauth1 : sendTok.owner = tk.key)
    (hbal1 : es.expected_amount ≤ sendTok.amount)
    (hovf1 : irecvTok.amount + es.expected_amount < U64_MOD)
    (hauth2 : tempTok.owner = (findPA pid).1)
    (hovf2 : recvTok.amount + tempTok.amount < U64_MOD)
    (hdist : List.Pairwise (fun x y => x ≠ y)
      [snd.key, rcv.key, tmp.key, main.key, irecv.key, esc.key]) :
    ((s main.key).lamports + (s tmp.key).lamports < U64_MOD →
      U64_MOD ≤ (s main.key).lamports + (s tmp.key).lamports + (s esc.key).lamports →
      processExchange findPA s
        (tk :: snd :: rcv :: tmp :: main :: irecv :: esc :: tp :: pdaAcc :: rest) amt pid
        = .error .AmountOverflow)
    ∧ ((s main.key).lamports + (s tmp.key).lamports + (s esc.key).lamports < U64_MOD →
      ∃ s2, processExchange findPA s
          (tk :: snd :: rcv :: tmp :: main :: irecv :: esc :: tp :: pdaAcc :: rest) amt pid
          = .ok s2 ∧
        (s2 esc.key).lamports = 0 ∧
        (s2 main.key).lamports =
          (s main.key).lamports + (s tmp.key).lamports + (s esc.key).lamports) := by
  constructor
  · intro hok hbad
    exact exchange_overflow_spec findPA s tk snd rcv tmp main irecv esc tp pdaAcc rest
      amt pid sendTok irecvTok recvTok tempTok es hsig htmp hamt hesc hini hk1 hk2 hk3
      hsnd hirecv hrcv hauth1 hbal1 hovf1 hauth2 hovf2 hok hbad hdist
  · intro hovf3
    obtain ⟨s2, hrun, -, -, -, -, hmain2, hesc2, -⟩ :=
      exchange_success_spec findPA s tk snd rcv tmp main irecv esc tp pdaAcc rest amt pid
        sendTok irecvTok recvTok tempTok es hsig htmp hamt hesc hini hk1 hk2 hk3
        hsnd hirecv hrcv hauth1 hbal1 hovf1 hauth2 hovf2 hovf3 hdist
    exact ⟨s2, hrun, by rw [hesc2], by rw [hmain2]⟩


/-- C8: a successful Exchange zeroes the escrow record storage (balance and
data), and any Exchange call supplying an escrow storage account whose data
is empty (as it is after a close) fails deterministically: the record no
longer decodes as an open record, so validation rejects the replay. -/
theorem C8_closed_record_not_replayable
    (findPA : Pubkey → Pubkey × Nat) (s : Store)
    (tk snd rcv tmp main irecv esc tp : AccountRef) (rest : List AccountRef)
    (amt : Nat) (pid : Pubkey) (s2 : Store)
    (findPA2 : Pubkey → Pubkey × Nat) (t : Store)
    (tk2 snd2 rcv2 tmp2 main2 irecv2 tp2 : AccountRef) (rest2 : List AccountRef)
    (amt2 : Nat) (pid2 : Pubkey) :
    (processExchange findPA s
        (tk :: snd :: rcv :: tmp :: main :: irecv :: esc :: tp :: rest) amt pid = .ok s2 →
      (s2 esc.key).lamports = 0 ∧ (s2 esc.key).data = .empty)
    ∧ ((t esc.key).data = .empty →
      exceptOk (processExchange findPA2 t
        (tk2 :: snd2 :: rcv2 :: tmp2 :: main2 :: irecv2 :: esc :: tp2 :: rest2)
        amt2 pid2) = false) := by
  constructor
  · intro h
    exact processExchange_ok_closes findPA s tk snd rcv tmp main irecv esc tp rest
      amt pid s2 h
  · intro hempty
    cases hr : processExchange findPA2 t
        (tk2 :: snd2 :: rcv2 :: tmp2 :: main2 :: irecv2 :: esc :: tp2 :: rest2)
        amt2 pid2 with
    | error e => simp [exceptOk]
    | ok s3 =>
      exfalso
      rw [processExchange_decomp] at hr
      cases hv : exchangeValidate findPA2 t tk2 tmp2 main2 irecv2 esc amt2 pid2 with
      | error e => rw [hv] at hr; exact Except.noConfusion hr
      | ok c =>
        exact exchangeValidate_closed_never_ok findPA2 t tk2 tmp2 main2 irecv2 esc
          amt2 pid2 c hempty hv

/-- C9: process_exchange factors into a validation prefix that never sees
the taker's send and receive token accounts, followed by the settlement
suffix that uses them: two Exchange calls differing only in those two
account references share every validation outcome, and on validation
success both reach the transfer steps with their respective accounts. -/
theorem C9_validation_ignores_taker_accounts
    (findPA : Pubkey → Pubkey × Nat) (s : Store)
    (tk snd rcv snd' rcv' tmp main irecv esc tp : AccountRef)
    (rest : List AccountRef) (amt : Nat) (pid : Pubkey) :
    (processExchange findPA s
        (tk :: snd :: rcv :: tmp :: main :: irecv :: esc :: tp :: rest) amt pid =
      match exchangeValidate findPA s tk tmp main irecv esc amt pid with
      | .error e => .error e
      | .ok c => exchangeEffects s c snd rcv rest)
    ∧ (processExchange findPA s
        (tk :: snd' :: rcv' :: tmp :: main :: irecv :: esc :: tp :: rest) amt pid =
      match exchangeValidate findPA s tk tmp main irecv esc amt pid with
      | .error e => .error e
      | .ok c => exchangeEffects s c snd' rcv' rest) :=
  ⟨processExchange_decomp findPA s tk snd rcv tmp main irecv esc tp rest amt pid,
   processExchange_decomp findPA s tk snd' rcv' tmp main irecv esc tp rest amt pid⟩

/-- C10: process_init_escrow factors into a validation prefix that never
sees the temporary deposit account or the instruction amount, followed by
the effect suffix: two Init calls differing only in those inputs share every
validation outcome; and a successful Init records the supplied values
verbatim in the escrow record. -/
theorem C10_init_validation_ignores_temp_and_amount
    (findPA : Pubkey → Pubkey × Nat) (rent : Rent) (s : Store)
    (ini tmp tmp' rcv esc ra : AccountRef) (rest : List AccountRef)
    (amount amount' : Nat) (pid : Pubkey) :
    (processInitEscrow findPA rent s (ini :: tmp :: rcv :: esc :: ra :: rest) amount pid =
      match initValidate rent s ini rcv esc with
      | .error e => .error e
      | .ok _ => initEffects findPA s ini tmp rcv esc rest amount pid)
    ∧ (processInitEscrow findPA rent s (ini :: tmp' :: rcv :: esc :: ra :: rest) amount' pid =
      match initValidate rent s ini rcv esc with
      | .error e => .error e
      | .ok _ => initEffects findPA s ini tmp' rcv esc rest amount' pid)
    ∧ (∀ s2, processInitEscrow findPA rent s (ini :: tmp :: rcv :: esc :: ra :: rest)
        amount pid = .ok s2 →
      (s2 esc.key).data = .escrowData
        { is_initialized := true
          initializer_pubkey := ini.key
          temp_token_account_pubkey := tmp.key
          initializer_token_to_receive_account_pubkey := rcv.key
          expected_amount := amount }) :=
  ⟨processInitEscrow_decomp findPA rent s ini tmp rcv esc ra rest amount pid,
   processInitEscrow_decomp findPA rent s ini tmp' rcv esc ra rest amount' pid,
   fun s2 h => processInitEscrow_ok_record findPA rent s ini tmp rcv esc ra rest
     amount pid s2 h⟩


/-- Concrete run of C1: taker 1 swaps 50 units for the 100 custodied units;
every account ends exactly as the claim describes. -/
theorem C1_witness :
    wTaker.is_signer = true ∧
    ∃ s2, processExchange wFindPA wStoreX wAccountsX 100 55 = .ok s2 ∧
      s2 2 = ⟨11, splTokenId, .tokenData ⟨1, 30⟩⟩ ∧
      s2 6 = ⟨14, splTokenId, .tokenData ⟨5, 57⟩⟩ ∧
      s2 3 = ⟨12, splTokenId, .tokenData ⟨9, 105⟩⟩ ∧
      s2 4 = ⟨0, splTokenId, .empty⟩ ∧
      s2 5 = ⟨73, 0, .empty⟩ ∧
      s2 7 = ⟨0, 0, .empty⟩ ∧
      (∀ q, q ≠ 2 → q ≠ 3 → q ≠ 4 → q ≠ 5 → q ≠ 6 → q ≠ 7 → s2 q = wStoreX q) :=
  ⟨by decide, C1_exchange_net_effect wFindPA wStoreX wTaker wSend wRecv wTemp wMain
    wIRecv wEsc wTokenProg wPdaAcc [] 100 55 ⟨1, 80⟩ ⟨5, 7⟩ ⟨9, 5⟩ ⟨77, 100⟩
    ⟨true, 5, 4, 6, 50⟩ (by decide) (by decide) (by decide) (by decide) (by decide)
    (by decide) (by decide) (by decide) (by decide) (by decide) (by decide) (by decide)
    (by decide) (by decide) (by decide) (by decide) (by decide) (by decide)⟩

/-- Concrete run of C2: declaring 99 against a custodied balance of 100
fails with ExpectedAmountMismatch and changes nothing. -/
theorem C2_witness :
    (99 : Nat) ≠ 100 ∧
    processExchange wFindPA wStoreX wAccountsX 99 55 = .error .ExpectedAmountMismatch ∧
    runExchange wFindPA wStoreX wAccountsX 99 55 = wStoreX :=
  ⟨by decide, C2_amount_mismatch_rejected wFindPA wStoreX wTaker wSend wRecv wTemp
    [wMain, wIRecv, wEsc, wTokenProg, wPdaAcc] 99 55 ⟨77, 100⟩
    (by decide) (by decide) (by decide)⟩

/-- Concrete run of C3: the record names deposit account 44 but account 4 is
supplied; the call fails with InvalidAccountData and changes nothing. -/
theorem C3_witness :
    (44 : Pubkey) ≠ 4 ∧
    processExchange wFindPA wStoreMis wAccountsX 100 55 = .error .InvalidAccountData ∧
    runExchange wFindPA wStoreMis wAccountsX 100 55 = wStoreMis :=
  ⟨by decide, C3_record_crosscheck_rejected wFindPA wStoreMis wTaker wSend wRecv wTemp
    wMain wIRecv wEsc [wTokenProg, wPdaAcc] 100 55 ⟨77, 100⟩ ⟨true, 5, 44, 6, 50⟩
    (by decide) (by decide) (by decide) (by decide) (by decide) (Or.inl (by decide))⟩

/-- Concrete run of C4: re-initializing used storage fails; a fresh Init
persists exactly the supplied initializer, deposit account, receive account
and amount. -/
theorem C4_witness :
    processInitEscrow wFindPA wRent wStoreIdone wAccountsI 42 55 =
      .error .AccountAlreadyInitialized ∧
    ∃ s2, processInitEscrow wFindPA wRent wStoreI wAccountsI 42 55 = .ok s2 ∧
      (s2 7).data = .escrowData ⟨true, 1, 4, 6, 42⟩ :=
  ⟨((C4_init_record_fields wFindPA wRent wStoreIdone wIni wTemp wIRecv wEsc wRentAcc
      wTokenProg [] 42 55 ⟨true, 1, 4, 6, 50⟩ (by decide) (by decide) (by decide)
      (by decide)).1 (by decide)).1,
   (C4_init_record_fields wFindPA wRent wStoreI wIni wTemp wIRecv wEsc wRentAcc
      wTokenProg [] 42 55 ⟨false, 0, 0, 0, 0⟩ (by decide) (by decide) (by decide)
      (by decide)).2 (by decide) ⟨1, 100⟩ (by decide) (by decide) (by decide)⟩

/-- Concrete runs of C5: each of the four Init validation failures yields
its error. -/
theorem C5_witness :
    processInitEscrow wFindPA wRent wStoreI
      (wIniNoSig :: [wTemp, wIRecv, wEsc, wRentAcc, wTokenProg]) 42 55 =
      .error .MissingRequiredSignature ∧
    processInitEscrow wFindPA wRent wStoreIBadOwner wAccountsI 42 55 =
      .error .IncorrectProgramId ∧
    processInitEscrow wFindPA wRent wStoreIPoor wAccountsI 42 55 =
      .error .NotRentExempt ∧
    processInitEscrow wFindPA wRent wStoreIdone wAccountsI 42 55 =
      .error .AccountAlreadyInitialized :=
  ⟨(C5_init_validation_failures_no_write.1 wFindPA wRent wStoreI wIniNoSig
      [wTemp, wIRecv, wEsc, wRentAcc, wTokenProg] 42 55 (by decide)).1,
   (C5_init_validation_failures_no_write.2.1 wFindPA wRent wStoreIBadOwner wIni wTemp
      wIRecv [wEsc, wRentAcc, wTokenProg] 42 55 (by decide) (by decide)).1,
   (C5_init_validation_failures_no_write.2.2.1 wFindPA wRent wStoreIPoor wIni wTemp
      wIRecv wEsc wRentAcc [wTokenProg] 42 55 (by decide) (by decide) (by decide)).1,
   (C5_init_validation_failures_no_write.2.2.2 wFindPA wRent wStoreIdone wIni wTemp
      wIRecv wEsc wRentAcc [wTokenProg] 42 55 ⟨true, 1, 4, 6, 50⟩ (by decide) (by decide)
      (by decide) (by decide) (by decide)).1⟩

/-- Concrete run of C6: the taker declares 100 (the custodied balance), yet
the initializer leg settles 50 — the recorded expected_amount, not the
declared figure. -/
theorem C6_witness :
    (50 : Nat) ≠ 100 ∧
    ∃ s2, processExchange wFindPA wStoreX wAccountsX 100 55 = .ok s2 ∧
      (s2 6).data = .tokenData ⟨5, 57⟩ ∧
      (s2 2).data = .tokenData ⟨1, 30⟩ :=
  ⟨by decide, C6_transfer_uses_recorded_amount wFindPA wStoreX wTaker wSend wRecv wTemp
    wMain wIRecv wEsc wTokenProg wPdaAcc [] 100 55 ⟨1, 80⟩ ⟨5, 7⟩ ⟨9, 5⟩ ⟨77, 100⟩
    ⟨true, 5, 4, 6, 50⟩ (by decide) (by decide) (by decide) (by decide) (by decide)
    (by decide) (by decide) (by decide) (by decide) (by decide) (by decide) (by decide)
    (by decide) (by decide) (by decide) (by decide) (by decide) (by decide)⟩

/-- Concrete runs of C7: with the main account balance near the 64-bit cap
the rent reclaim fails with AmountOverflow; in the ordinary run it succeeds
and leaves the escrow storage with zero balance. -/
theorem C7_witness :
    U64_MOD ≤ U64_MOD - 25 + 13 + 20 ∧
    processExchange wFindPA wStoreOvf wAccountsX 100 55 = .error .AmountOverflow ∧
    ∃ s2, processExchange wFindPA wStoreX wAccountsX 100 55 = .ok s2 ∧
      (s2 7).lamports = 0 ∧ (s2 5).lamports = 73 :=
  ⟨by decide,
   (C7_rent_reclaim_overflow_checked wFindPA wStoreOvf wTaker wSend wRecv wTemp wMain
      wIRecv wEsc wTokenProg wPdaAcc [] 100 55 ⟨1, 80⟩ ⟨5, 7⟩ ⟨9, 5⟩ ⟨77, 100⟩
      ⟨true, 5, 4, 6, 50⟩ (by decide) (by decide) (by decide) (by decide) (by decide)
      (by decide) (by decide) (by decide) (by decide) (by decide) (by decide) (by decide)
      (by decide) (by decide) (by decide) (by decide) (by decide)).1 (by decide) (by decide),
   (C7_rent_reclaim_overflow_checked wFindPA wStoreX wTaker wSend wRecv wTemp wMain
      wIRecv wEsc wTokenProg wPdaAcc [] 100 55 ⟨1, 80⟩ ⟨5, 7⟩ ⟨9, 5⟩ ⟨77, 100⟩
      ⟨true, 5, 4, 6, 50⟩ (by decide) (by decide) (by decide) (by decide) (by decide)
      (by decide) (by decide) (by decide) (by decide) (by decide) (by decide) (by decide)
      (by decide) (by decide) (by decide) (by decide) (by decide)).2 (by decide)⟩

/-- Concrete run of C8: the successful exchange leaves storage 7 closed, and
an exchange against the already-closed storage cannot succeed. -/
theorem C8_witness :
    (runExchange wFindPA wStoreX wAccountsX 100 55 7).lamports = 0 ∧
    (runExchange wFindPA wStoreX wAccountsX 100 55 7).data = .empty ∧
    exceptOk (processExchange wFindPA wStoreClosed wAccountsX 100 55) = false := by
  have H := C8_closed_record_not_replayable wFindPA wStoreX wTaker wSend wRecv wTemp
    wMain wIRecv wEsc wTokenProg [wPdaAcc] 100 55
    (runExchange wFindPA wStoreX wAccountsX 100 55)
    wFindPA wStoreClosed wTaker wSend wRecv wTemp wMain wIRecv wTokenProg [wPdaAcc] 100 55
  have hx := H.1 rfl
  exact ⟨hx.1, hx.2, H.2 (by decide)⟩

/-- Concrete run of C10: Init with deposit account 4 and amount 42 records
exactly those values. -/
theorem C10_witness :
    (runInitEscrow wFindPA wRent wStoreI wAccountsI 42 55 7).data =
      .escrowData ⟨true, 1, 4, 6, 42⟩ :=
  (C10_init_validation_ignores_temp_and_amount wFindPA wRent wStoreI wIni wTemp wTemp
    wIRecv wEsc wRentAcc [wTokenProg] 42 42 55).2.2
    (runInitEscrow wFindPA wRent wStoreI wAccountsI 42 55) rfl

end SolEscrow
